import Mathlib

/-!
Verification development for the sol-transfer batch pipeline
(repository va-an/animated-palm-tree, file src/sol-transfer/src/main.rs,
with the unit conversion of src/balance-fetcher/src/main.rs).

The Rust code is embedded shallowly: every network interaction is
resolved by an oracle environment `Env` that fixes the decoded JSON-RPC
response (or a transport failure) for each call, and every function
additionally records the trace of RPC calls it issues.  Async tasks in
the source share no mutable state and `futures::future::join_all`
returns the task outputs in the order the tasks were pushed, so the
batch is modelled as the order-preserving list of the independent
per-pair executor runs.  Wall-clock durations (`Instant::elapsed`) are
modelled by an oracle `Env.time` sampled once per return path, exactly
as the source samples `start_time.elapsed()` once per return path.
-/

/-- Raw bytes are modelled as lists of naturals below 256; the byte
values only matter through length checks and equality. -/
abbrev Byte := Nat

/-- The base-58 alphabet used by the `bs58` crate (Bitcoin alphabet),
as in `bs58::decode` called by `parse_keypair`, `Hash::from_str` and
`Pubkey::from_str`. -/
def b58Alphabet : List Char :=
  [ '1', '2', '3', '4', '5', '6', '7', '8', '9',
    'A', 'B', 'C', 'D', 'E', 'F', 'G', 'H', 'J', 'K', 'L', 'M', 'N',
    'P', 'Q', 'R', 'S', 'T', 'U', 'V', 'W', 'X', 'Y', 'Z',
    'a', 'b', 'c', 'd', 'e', 'f', 'g', 'h', 'i', 'j', 'k', 'm', 'n',
    'o', 'p', 'q', 'r', 's', 't', 'u', 'v', 'w', 'x', 'y', 'z' ]

/-- Value of one base-58 digit, `none` for a character outside the
alphabet. -/
def b58Value (c : Char) : Option Nat :=
  b58Alphabet.findIdx? (fun d => d = c)

/-- Fuel-driven big-endian byte expansion; the fuel bounds the number
of produced bytes, and a fuel of `n` is always enough for `n`. -/
def natToBEBytesAux : Nat → Nat → List Byte
  | _, 0 => []
  | 0, _ + 1 => []
  | fuel + 1, n + 1 =>
      natToBEBytesAux fuel ((n + 1) / 256) ++ [(n + 1) % 256]

/-- Big-endian byte expansion of a natural number, with no leading
zero byte; `0` maps to the empty list. -/
def natToBEBytes (n : Nat) : List Byte := natToBEBytesAux n n

/-- Numeric value of a base-58 digit string, `none` when some
character is outside the alphabet. -/
def b58Nat (cs : List Char) : Option Nat :=
  cs.foldl (fun acc c => acc.bind fun n => (b58Value c).map fun d => n * 58 + d)
    (some 0)

/-- Embedding of `bs58::decode(s).into_vec()`: each leading alphabet
character of value zero contributes one leading zero byte, the whole
string is read as a big-endian base-58 number whose minimal big-endian
byte expansion follows.  Returns `none` when some character is outside
the alphabet. -/
def bs58Decode (s : String) : Option (List Byte) :=
  match b58Nat s.toList with
  | none => none
  | some n =>
      some (List.replicate (s.toList.takeWhile (fun c => c = '1')).length 0
              ++ natToBEBytes n)

/-- A 32-byte ledger hash (`solana_sdk::hash::Hash`). -/
structure Hash where
  bytes : List Byte
deriving DecidableEq, Repr

/-- A 32-byte account identifier (`solana_sdk::pubkey::Pubkey`). -/
structure Pubkey where
  bytes : List Byte
deriving DecidableEq, Repr

/-- Embedding of `Hash::from_str`: rejects strings longer than the
maximal base-58 length of 44, invalid base-58, and decoded lengths
other than 32; the error strings follow `ParseHashError`. -/
def hash_from_str (s : String) : Except String Hash :=
  if s.length > 44 then
    .error "string decoded to wrong size for hash"
  else
    match bs58Decode s with
    | none => .error "failed to decoded string to hash"
    | some b =>
        if b.length = 32 then .ok ⟨b⟩
        else .error "string decoded to wrong size for hash"

/-- Embedding of `Pubkey::from_str`: rejects strings longer than 44,
invalid base-58, and decoded lengths other than 32; the error strings
follow `ParsePubkeyError`. -/
def pubkey_from_str (s : String) : Except String Pubkey :=
  if s.length > 44 then
    .error "String is the wrong size"
  else
    match bs58Decode s with
    | none => .error "Invalid Base58 string"
    | some b =>
        if b.length = 32 then .ok ⟨b⟩
        else .error "String is the wrong size"

/-- A signing keypair (`solana_sdk::signature::Keypair`): 32 secret
bytes and 32 public bytes. -/
structure Keypair where
  secretBytes : List Byte
  publicBytes : List Byte
deriving DecidableEq, Repr

/-- `Keypair::pubkey()`: the public half as an account identifier. -/
def Keypair.pubkey (kp : Keypair) : Pubkey := ⟨kp.publicBytes⟩

/-- One sender entry of the configuration. -/
structure SenderWallet where
  address : String
  private_key : String
deriving DecidableEq, Repr

/-- Decoded `getSignatureStatus` value entry. -/
structure SignatureStatus where
  slot : Nat
  confirmations : Option Nat
  err : Option String
  confirmation_status : Option String
deriving DecidableEq, Repr

/-- Terminal per-pair record produced by the transfer executor.
Durations are in abstract clock units. -/
structure TransferResult where
  from_address : String
  to_address : String
  signature : String
  status : Option SignatureStatus
  processing_time : Nat
  error : Option String
deriving DecidableEq, Repr

/-- JSON-RPC error envelope `{code, message}`. -/
structure JsonRpcError where
  code : Int
  message : String
deriving DecidableEq, Repr

/-- Decoded JSON-RPC response envelope with optional `result` and
optional `error`. -/
structure JsonRpcResponse (T : Type) where
  jsonrpc : String
  id : Nat
  result : Option T
  error : Option JsonRpcError
deriving DecidableEq, Repr

/-- Decoded `getLatestBlockhash` result payload. -/
structure BlockhashValue where
  blockhash : String
  last_valid_block_height : Nat
deriving DecidableEq, Repr

/-- Wrapper around the blockhash value, as in the response shape. -/
structure BlockhashResult where
  value : BlockhashValue
deriving DecidableEq, Repr

/-- Decoded `getSignatureStatus` result payload: the value may be
absent when the node has not observed the signature. -/
structure SignatureStatusResult where
  value : Option SignatureStatus
deriving DecidableEq, Repr

/-- Failure taxonomy of one RPC call, following the specification:
a protocol error envelope from the server, a transport or decoding
failure, or a syntactically valid response with neither result nor
error.  The carried strings reproduce the formatted messages of the
source. -/
inductive RpcFailure where
  | Protocol (code : Int) (message : String)
  | Transport (msg : String)
  | EmptyResult (msg : String)
deriving DecidableEq, Repr

/-- Rendering of a failure to the message string the source embeds in
a transfer result, matching the `format!` calls of the source. -/
def RpcFailure.render : RpcFailure → String
  | .Protocol code message =>
      "RPC Error: " ++ toString code ++ " - " ++ message
  | .Transport msg => msg
  | .EmptyResult msg => msg

/-- A transfer instruction produced by `system_instruction::transfer`. -/
structure Instruction where
  fromPubkey : Pubkey
  toPubkey : Pubkey
  lamports : Nat
deriving DecidableEq, Repr

/-- A signed transaction as assembled by
`Transaction::new_signed_with_payer`: the instruction list, the fee
payer, the bound recent blockhash and the signing keys. -/
structure Transaction where
  instructions : List Instruction
  feePayer : Option Pubkey
  recentBlockhash : Hash
  signerPubkeys : List Pubkey
deriving DecidableEq, Repr

/-- Trace events: the RPC calls a run issues, plus the fixed sleep
before the status check (in milliseconds). -/
inductive RpcCall where
  | getLatestBlockhash
  | sendTransaction (tx : Transaction)
  | sleep (ms : Nat)
  | getSignatureStatus (sig : String)
deriving DecidableEq, Repr

/-- Oracle environment resolving every effect of the pipeline: the
decoded response (or transport failure, as a message string) of each
network call, the validity check of `Keypair::from_bytes`, and the
wall-clock sampling of `Instant::elapsed` for a given sender address,
recipient and number of completed awaited operations. -/
structure Env where
  blockhashResp : Except String (JsonRpcResponse BlockhashResult)
  fromBytes : List Byte → Option Keypair
  sendResp : Transaction → Except String (JsonRpcResponse String)
  statusResp : String → Except String (JsonRpcResponse SignatureStatusResult)
  time : String → String → Nat → Nat

/-- Embedding of `SolTransfer::get_recent_blockhash` (main.rs lines
114-146): decode failure of the network call is a transport failure; a
server error envelope wins over any result; a present result has its
blockhash string parsed by `Hash::from_str`, whose failure propagates
through the question-mark operator; an absent result yields the
no-result error. -/
def get_recent_blockhash (env : Env) : Except RpcFailure Hash :=
  match env.blockhashResp with
  | .error m => .error (.Transport m)
  | .ok resp =>
      match resp.error with
      | some e => .error (.Protocol e.code e.message)
      | none =>
          match resp.result with
          | some result =>
              match hash_from_str result.value.blockhash with
              | .ok h => .ok h
              | .error m => .error (.Transport m)
          | none => .error (.EmptyResult "No result in response")

/-- Embedding of `SolTransfer::create_transfer_transaction` (main.rs
lines 149-167): one transfer instruction, fee payer the sender,
signed by the sender keypair.  The Rust signature admits failure but
the body only ever returns `Ok`. -/
def create_transfer_transaction (sender_keypair : Keypair)
    (recipient_pubkey : Pubkey) (lamports : Nat) (recent_blockhash : Hash) :
    Except String Transaction :=
  .ok
    { instructions :=
        [ { fromPubkey := sender_keypair.pubkey
            toPubkey := recipient_pubkey
            lamports := lamports } ]
      feePayer := some sender_keypair.pubkey
      recentBlockhash := recent_blockhash
      signerPubkeys := [sender_keypair.pubkey] }

/-- Embedding of `SolTransfer::send_transaction` (main.rs lines
170-209): same envelope handling as the blockhash fetch; a present
result is the signature string; the no-result message here is the
no-signature one. -/
def send_transaction (env : Env) (transaction : Transaction) :
    Except RpcFailure String :=
  match env.sendResp transaction with
  | .error m => .error (.Transport m)
  | .ok resp =>
      match resp.error with
      | some e => .error (.Protocol e.code e.message)
      | none =>
          match resp.result with
          | some signature => .ok signature
          | none => .error (.EmptyResult "No signature in response")

/-- Embedding of `SolTransfer::get_signature_status` (main.rs lines
212-246): same envelope handling; a present result yields its
(possibly absent) status value. -/
def get_signature_status (env : Env) (signature : String) :
    Except RpcFailure (Option SignatureStatus) :=
  match env.statusResp signature with
  | .error m => .error (.Transport m)
  | .ok resp =>
      match resp.error with
      | some e => .error (.Protocol e.code e.message)
      | none =>
          match resp.result with
          | some result => .ok result.value
          | none => .error (.EmptyResult "No result in response")

/-- Embedding of `SolTransfer::parse_keypair` (main.rs lines 249-259):
base-58 decode, exact length check against 64 with the formatted
length message, then `Keypair::from_bytes` whose byte-level validity
is the oracle `fromBytes`. -/
def parse_keypair (fromBytes : List Byte → Option Keypair)
    (private_key_base58 : String) : Except String Keypair :=
  match bs58Decode private_key_base58 with
  | none => .error "provided string contained invalid base-58 character"
  | some private_key_bytes =>
      if private_key_bytes.length ≠ 64 then
        .error ("Invalid private key length: expected 64 bytes, got "
                  ++ toString private_key_bytes.length)
      else
        match fromBytes private_key_bytes with
        | some kp => .ok kp
        | none => .error "signature error: invalid keypair bytes"

/-- One transfer executor task (main.rs lines 293-387), the body of
the async block for one (sender, recipient) pair: parse the sender
keypair, parse the recipient address, build and sign, submit, sleep a
fixed 2000 ms, query the status once.  Any parse, build or submit
failure returns a terminal result immediately with the formatted
error; a status-query failure is only logged and leaves the status
absent.  The second component is the trace of calls the task issued;
the clock oracle is sampled with the number of completed awaited
operations, as `start_time.elapsed()` is sampled once per return
path. -/
def runTransfer (env : Env) (amount_lamports : Nat) (blockhash : Hash)
    (sender : SenderWallet) (recipient : String) :
    TransferResult × List RpcCall :=
  match parse_keypair env.fromBytes sender.private_key with
  | .error e =>
      ({ from_address := sender.address
         to_address := recipient
         signature := ""
         status := none
         processing_time := env.time sender.address recipient 0
         error := some ("Failed to parse keypair: " ++ e) }, [])
  | .ok sender_keypair =>
      match pubkey_from_str recipient with
      | .error e =>
          ({ from_address := sender.address
             to_address := recipient
             signature := ""
             status := none
             processing_time := env.time sender.address recipient 0
             error := some ("Invalid recipient address: " ++ e) }, [])
      | .ok recipient_pubkey =>
          match create_transfer_transaction sender_keypair recipient_pubkey
              amount_lamports blockhash with
          | .error e =>
              ({ from_address := sender.address
                 to_address := recipient
                 signature := ""
                 status := none
                 processing_time := env.time sender.address recipient 0
                 error := some ("Failed to create transaction: " ++ e) }, [])
          | .ok transaction =>
              match send_transaction env transaction with
              | .error e =>
                  ({ from_address := sender.address
                     to_address := recipient
                     signature := ""
                     status := none
                     processing_time := env.time sender.address recipient 1
                     error := some ("Failed to send transaction: "
                                      ++ e.render) },
                   [.sendTransaction transaction])
              | .ok signature =>
                  let status :=
                    match get_signature_status env signature with
                    | .ok status => status
                    | .error _ => none
                  ({ from_address := sender.address
                     to_address := recipient
                     signature := signature
                     status := status
                     processing_time := env.time sender.address recipient 3
                     error := none },
                   [.sendTransaction transaction, .sleep 2000,
                    .getSignatureStatus signature])

/-- Embedding of `SolTransfer::execute_transfers` (main.rs lines
262-395), the batch coordinator: fetch one blockhash (on failure
return the empty collection at once, only the fetch in the trace);
otherwise build the sender-major, recipient-minor cross product of
tasks and await them all, `join_all` returning the results in task
order.  The second component is the full trace of issued calls. -/
def execute_transfers (env : Env) (sender_wallets : List SenderWallet)
    (recipients : List String) (amount_lamports : Nat) :
    List TransferResult × List RpcCall :=
  match get_recent_blockhash env with
  | .error _ => ([], [.getLatestBlockhash])
  | .ok blockhash =>
      let outs :=
        sender_wallets.flatMap fun sender =>
          recipients.map fun recipient =>
            runTransfer env amount_lamports blockhash sender recipient
      (outs.map Prod.fst,
       .getLatestBlockhash :: outs.flatMap Prod.snd)

/-- Accumulator of `SolTransfer::print_statistics` (main.rs lines
398-465): success and failure counts and the successful-only timing
sums and extrema.  The initial minimum is `Duration::from_secs(u64::MAX)`
in abstract nanosecond units. -/
structure Stats where
  successful : Nat
  failed : Nat
  total_time : Nat
  min_time : Nat
  max_time : Nat
deriving DecidableEq, Repr

/-- Initial accumulator values of `print_statistics`. -/
def initStats : Stats :=
  { successful := 0
    failed := 0
    total_time := 0
    min_time := 18446744073709551615 * 1000000000
    max_time := 0 }

/-- One loop iteration of `print_statistics`: a result with a present
error counts as failed and contributes nothing to the timings; any
other result counts as successful and contributes its processing
time. -/
def statsStep (st : Stats) (result : TransferResult) : Stats :=
  match result.error with
  | some _ => { st with failed := st.failed + 1 }
  | none =>
      { st with
          successful := st.successful + 1
          total_time := st.total_time + result.processing_time
          min_time := min st.min_time result.processing_time
          max_time := max st.max_time result.processing_time }

/-- The aggregation loop of `print_statistics` over all results. -/
def computeStats (results : List TransferResult) : Stats :=
  results.foldl statsStep initStats

/-- The average processing time printed by `print_statistics`: the
division `total_time / successful` is evaluated only under the guard
`successful > 0`; otherwise nothing is printed, modelled as `none`. -/
def averageTime (results : List TransferResult) : Option Nat :=
  let st := computeStats results
  if st.successful > 0 then some (st.total_time / st.successful) else none

/-- Truncation toward zero of a rational, the rounding of the Rust
float-to-integer cast for in-range values. -/
def ratTrunc (q : ℚ) : Int :=
  if 0 ≤ q then ⌊q⌋ else -⌊-q⌋

/-- Embedding of `SolTransfer::sol_to_lamports` (sol-transfer main.rs
lines 109-111): `(sol * 1_000_000_000.0) as u64`.  The source computes
in IEEE double precision; this model computes in exact rational
arithmetic, which agrees with the source wherever the product is
exactly representable (in particular on whole and half SOL values).
The `as u64` cast truncates toward zero and saturates at the u64
bounds (negative values to 0). -/
def sol_to_lamports (sol : ℚ) : Nat :=
  min (ratTrunc (sol * 1000000000)).toNat 18446744073709551615

/-- Embedding of `SolanaBalanceChecker::lamports_to_sol`
(balance-fetcher main.rs lines 118-120): `lamports as f64 /
1_000_000_000.0`, again modelled in exact rational arithmetic, which
agrees with the source wherever the quotient is exactly
representable. -/
def lamports_to_sol (lamports : Nat) : ℚ :=
  (lamports : ℚ) / 1000000000

/-- Decidable equality of call outcomes, used to evaluate the
concrete witnesses. -/
instance {ε α : Type _} [DecidableEq ε] [DecidableEq α] :
    DecidableEq (Except ε α) :=
  fun a b =>
    match a, b with
    | .ok x, .ok y =>
        if h : x = y then isTrue (by rw [h]) else isFalse (by simp [h])
    | .error x, .error y =>
        if h : x = y then isTrue (by rw [h]) else isFalse (by simp [h])
    | .ok _, .error _ => isFalse (by simp)
    | .error _, .ok _ => isFalse (by simp)

/-! Concrete fixtures used by the witnesses: a 32-character all-ones
string is a valid base-58 encoding of 32 zero bytes (a valid hash and
a valid account identifier, the system program id), and 64 ones encode
a 64-byte secret key. -/

/-- Valid blockhash string: 32 ones decode to 32 zero bytes. -/
def bhString : String := String.mk (List.replicate 32 '1')

/-- Valid secret-key string: 64 ones decode to 64 zero bytes. -/
def skString : String := String.mk (List.replicate 64 '1')

/-- Valid recipient string: 32 ones, the system program id. -/
def rcString : String := String.mk (List.replicate 32 '1')

/-- Concrete stand-in for `Keypair::from_bytes`: accepts exactly
64-byte inputs and splits them into the secret and public halves. -/
def testFromBytes : List Byte → Option Keypair :=
  fun b => if b.length = 64 then some ⟨b.take 32, b.drop 32⟩ else none

/-- A fully confirmed status fixture. -/
def okStatus : SignatureStatus :=
  { slot := 5, confirmations := some 1, err := none,
    confirmation_status := some "confirmed" }

/-- Environment in which every call succeeds. -/
def testEnv : Env :=
  { blockhashResp := .ok ⟨"2.0", 1, some ⟨⟨bhString, 100⟩⟩, none⟩
    fromBytes := testFromBytes
    sendResp := fun _ => .ok ⟨"2.0", 1, some "SIG_A", none⟩
    statusResp := fun _ => .ok ⟨"2.0", 1, some ⟨some okStatus⟩, none⟩
    time := fun _ _ _ => 7 }

/-- Environment whose blockhash fetch fails at the transport level. -/
def failEnv : Env :=
  { testEnv with blockhashResp := .error "connection refused" }

/-- Environment whose status query fails at the transport level. -/
def statusFailEnv : Env :=
  { testEnv with statusResp := fun _ => .error "timeout" }

/-- Environment whose transaction submission fails with a server
error envelope. -/
def sendFailEnv : Env :=
  { testEnv with
      sendResp := fun _ => .ok ⟨"2.0", 1, none, some ⟨-32002, "blockhash expired"⟩⟩ }

/-- Environment whose blockhash fetch decodes a response carrying a
result and no error, but whose blockhash string is not valid
base-58. -/
def badHashEnv : Env :=
  { testEnv with blockhashResp := .ok ⟨"2.0", 1, some ⟨⟨"0", 3⟩⟩, none⟩ }

/-- Claim C8: SOL-to-lamports conversion multiplies by 1,000,000,000
and truncates toward zero (for every non-negative in-range amount it
equals the floor of the product), and the round trips on the exact
values hold: 1.0 SOL maps to 1,000,000,000 lamports and back to 1.0,
0.5 to 500,000,000 and back to 0.5, and 0 to 0 and back to 0.0.  The
rational model coincides with the IEEE double arithmetic of the source
on these inputs, where every intermediate value is exactly
representable. -/
theorem sol_lamports_roundtrip :
    (sol_to_lamports 1 = 1000000000 ∧ lamports_to_sol 1000000000 = 1)
    ∧ (sol_to_lamports (1/2) = 500000000 ∧ lamports_to_sol 500000000 = 1/2)
    ∧ (sol_to_lamports 0 = 0 ∧ lamports_to_sol 0 = 0)
    ∧ ∀ q : ℚ, 0 ≤ q → q * 1000000000 < 18446744073709551615 →
        (sol_to_lamports q : ℤ) = ⌊q * 1000000000⌋ := by
  refine ⟨⟨?_, ?_⟩, ⟨?_, ?_⟩, ⟨?_, ?_⟩, ?_⟩
  · norm_num [sol_to_lamports, ratTrunc]; omega
  · norm_num [lamports_to_sol]
  · norm_num [sol_to_lamports, ratTrunc]; omega
  · norm_num [lamports_to_sol]
  · norm_num [sol_to_lamports, ratTrunc]
  · norm_num [lamports_to_sol]
  · intro q hq hlt
    have h9 : (0:ℚ) ≤ q * 1000000000 := by positivity
    have hfl : (0:ℤ) ≤ ⌊q * 1000000000⌋ := Int.floor_nonneg.mpr h9
    have hub : ⌊q * 1000000000⌋ < 18446744073709551615 := by
      refine Int.floor_lt.mpr ?_
      exact_mod_cast hlt
    unfold sol_to_lamports ratTrunc
    rw [if_pos h9]
    have h1 := Int.toNat_of_nonneg hfl
    omega

/-- Witness for C8: the truncation clause evaluated at 1.5 SOL, whose
hypotheses hold concretely; 1.5 SOL truncates to exactly 1,500,000,000
lamports. -/
theorem sol_lamports_roundtrip_witness :
    (0:ℚ) ≤ 3/2 ∧ (3/2 : ℚ) * 1000000000 < 18446744073709551615
    ∧ (sol_to_lamports (3/2) : ℤ) = ⌊(3/2 : ℚ) * 1000000000⌋ :=
  ⟨by norm_num, by norm_num,
    sol_lamports_roundtrip.2.2.2 (3/2) (by norm_num) (by norm_num)⟩

/-- Accumulator-generalised description of the statistics loop: the
success and failure counters each advance by the number of results
without, respectively with, a present error. -/
lemma foldl_statsStep_counts (results : List TransferResult) (st : Stats) :
    (results.foldl statsStep st).successful
        = st.successful + results.countP (fun r => r.error.isNone)
    ∧ (results.foldl statsStep st).failed
        = st.failed + results.countP (fun r => r.error.isSome) := by
  induction results generalizing st with
  | nil => simp
  | cons r rs ih =>
      rcases ih (statsStep st r) with ⟨ihs, ihf⟩
      constructor
      · rw [List.foldl_cons, ihs, List.countP_cons]
        cases h : r.error <;> simp [statsStep, h] <;> omega
      · rw [List.foldl_cons, ihf, List.countP_cons]
        cases h : r.error <;> simp [statsStep, h] <;> omega

/-- Claim C7: the statistics aggregator counts a result as failed
exactly when its error field is present and as successful otherwise,
so the two counts add up to the total number of results; the average
is computed, as total successful time divided by the successful count,
exactly when the successful count is nonzero, so the division is never
evaluated with a zero divisor. -/
theorem statistics_counts (results : List TransferResult) :
    (computeStats results).successful = results.countP (fun r => r.error.isNone)
    ∧ (computeStats results).failed = results.countP (fun r => r.error.isSome)
    ∧ (computeStats results).successful + (computeStats results).failed
        = results.length
    ∧ ((computeStats results).successful ≠ 0 →
        averageTime results
          = some ((computeStats results).total_time
                    / (computeStats results).successful))
    ∧ ((computeStats results).successful = 0 → averageTime results = none) := by
  rcases foldl_statsStep_counts results initStats with ⟨hs, hf⟩
  have hs0 : (computeStats results).successful
      = results.countP (fun r => r.error.isNone) := by
    simpa [computeStats, initStats] using hs
  have hf0 : (computeStats results).failed
      = results.countP (fun r => r.error.isSome) := by
    simpa [computeStats, initStats] using hf
  refine ⟨hs0, hf0, ?_, ?_, ?_⟩
  · rw [hs0, hf0]
    have := List.length_eq_countP_add_countP (fun r : TransferResult => r.error.isNone) results
    rw [this]
    congr 1
    refine List.countP_congr ?_
    intro r _
    cases h : r.error <;> simp [h]
  · intro h
    simp [averageTime, Nat.pos_of_ne_zero h]
  · intro h
    simp [averageTime, h]

/-- Claim C9: the transaction builder never returns an error — for
every keypair, recipient, amount and blockhash it produces a signed
transaction whose fee payer is the sender public key — and therefore
the build-failure branch of the executor is unreachable: whenever both
parses succeed the executor always proceeds to the submission step,
with that same transaction at the head of its call trace. -/
theorem create_transfer_infallible :
    (∀ (kp : Keypair) (pk : Pubkey) (lam : Nat) (bh : Hash),
      ∃ tx, create_transfer_transaction kp pk lam bh = Except.ok tx
        ∧ tx.feePayer = some kp.pubkey)
    ∧ ∀ (env : Env) (a : Nat) (bh : Hash) (s : SenderWallet) (r : String)
        (kp : Keypair) (pk : Pubkey),
        parse_keypair env.fromBytes s.private_key = .ok kp →
        pubkey_from_str r = .ok pk →
        ∃ tx, (runTransfer env a bh s r).2.head? = some (.sendTransaction tx)
          ∧ tx.feePayer = some kp.pubkey := by
  constructor
  · intro kp pk lam bh
    exact ⟨_, rfl, rfl⟩
  · intro env a bh s r kp pk hk hr
    refine ⟨{ instructions := [⟨kp.pubkey, pk, a⟩]
              feePayer := some kp.pubkey
              recentBlockhash := bh
              signerPubkeys := [kp.pubkey] }, ?_, rfl⟩
    simp only [runTransfer, hk, hr, create_transfer_transaction]
    cases send_transaction env _ <;> rfl

set_option maxRecDepth 20000 in
/-- Witness for C9: in the all-success environment with the concrete
one-SOL amount, the executor for the fixture sender and recipient
heads its trace with the submission of the built transaction. -/
theorem create_transfer_infallible_witness :
    parse_keypair testEnv.fromBytes skString = .ok ⟨List.replicate 32 0, List.replicate 32 0⟩
    ∧ pubkey_from_str rcString = .ok ⟨List.replicate 32 0⟩
    ∧ ∃ tx,
        (runTransfer testEnv 1000000000 ⟨List.replicate 32 0⟩
            ⟨"SENDER", skString⟩ rcString).2.head?
          = some (.sendTransaction tx)
        ∧ tx.feePayer = some (Keypair.pubkey ⟨List.replicate 32 0, List.replicate 32 0⟩) :=
  ⟨by decide, by decide,
    create_transfer_infallible.2 testEnv 1000000000 ⟨List.replicate 32 0⟩
      ⟨"SENDER", skString⟩ rcString ⟨List.replicate 32 0, List.replicate 32 0⟩
      ⟨List.replicate 32 0⟩ (by decide) (by decide)⟩

/-- Claim C6: `parse_keypair` fails whenever the input is not valid
base-58 or whenever the decoded byte length is not exactly 64 (with
the message reporting expected 64 and the actual length), and returns
a keypair only when the input decodes to exactly 64 bytes accepted by
the keypair byte validation. -/
theorem parse_keypair_spec (fromBytes : List Byte → Option Keypair)
    (s : String) :
    (bs58Decode s = none → ∃ m, parse_keypair fromBytes s = .error m)
    ∧ (∀ b, bs58Decode s = some b → b.length ≠ 64 →
        parse_keypair fromBytes s
          = .error ("Invalid private key length: expected 64 bytes, got "
                      ++ toString b.length))
    ∧ (∀ kp, parse_keypair fromBytes s = .ok kp →
        ∃ b, bs58Decode s = some b ∧ b.length = 64 ∧ fromBytes b = some kp) := by
  refine ⟨?_, ?_, ?_⟩
  · intro h
    exact ⟨"provided string contained invalid base-58 character",
      by simp [parse_keypair, h]⟩
  · intro b hb hlen
    simp [parse_keypair, hb, hlen]
  · intro kp hkp
    rcases hdec : bs58Decode s with _ | b
    · simp [parse_keypair, hdec] at hkp
    · refine ⟨b, rfl, ?_⟩
      by_cases hlen : b.length = 64
      · rcases hfb : fromBytes b with _ | kp2
        · simp [parse_keypair, hdec, hlen, hfb] at hkp
        · simp [parse_keypair, hdec, hlen, hfb] at hkp
          exact ⟨hlen, by rw [hkp]⟩
      · simp [parse_keypair, hdec, hlen] at hkp

set_option maxRecDepth 20000 in
/-- Witness for C6: the string of a single zero digit is invalid
base-58 and is rejected; a single one decodes to the single zero byte
and is rejected with the length message for 1; the 64-ones fixture
decodes to 64 zero bytes and yields the keypair of two zero halves. -/
theorem parse_keypair_spec_witness :
    (∃ m, parse_keypair testFromBytes "0" = .error m)
    ∧ parse_keypair testFromBytes "1"
        = .error "Invalid private key length: expected 64 bytes, got 1"
    ∧ ∃ b, bs58Decode skString = some b ∧ b.length = 64
        ∧ testFromBytes b
            = some ⟨List.replicate 32 0, List.replicate 32 0⟩ :=
  ⟨(parse_keypair_spec testFromBytes "0").1 (by decide),
   (parse_keypair_spec testFromBytes "1").2.1 [0] (by decide) (by decide),
   (parse_keypair_spec testFromBytes skString).2.2
      ⟨List.replicate 32 0, List.replicate 32 0⟩ (by decide)⟩

/-- Claim C5, amended: for each of the three RPC calls, given a
decoded response, the call fails with the protocol error carrying the
code and message of the error object exactly when the error object is
present (taking precedence over any result), and fails with an
empty-result failure exactly when neither result nor error is present.
A response with a result and no error succeeds for the transaction
send and the status check; the blockhash fetch additionally parses the
blockhash string inside the result and succeeds exactly when that
parse succeeds, failing with a decode failure otherwise. -/
theorem rpc_envelope_spec (env : Env) :
    ((∀ resp, env.blockhashResp = .ok resp →
        ((∀ c m, resp.error = some ⟨c, m⟩ →
            get_recent_blockhash env = .error (.Protocol c m))
         ∧ (∀ c m, get_recent_blockhash env = .error (.Protocol c m) →
            resp.error = some ⟨c, m⟩)
         ∧ ((∃ m, get_recent_blockhash env = .error (.EmptyResult m))
              ↔ resp.error = none ∧ resp.result = none)
         ∧ (∀ r, resp.error = none → resp.result = some r →
              ((∃ h, get_recent_blockhash env = .ok h)
                ↔ ∃ h, hash_from_str r.value.blockhash = .ok h)))))
    ∧ (∀ tx resp, env.sendResp tx = .ok resp →
        ((∀ c m, resp.error = some ⟨c, m⟩ →
            send_transaction env tx = .error (.Protocol c m))
         ∧ (∀ c m, send_transaction env tx = .error (.Protocol c m) →
            resp.error = some ⟨c, m⟩)
         ∧ ((∃ m, send_transaction env tx = .error (.EmptyResult m))
              ↔ resp.error = none ∧ resp.result = none)
         ∧ (∀ sig, resp.error = none → resp.result = some sig →
              send_transaction env tx = .ok sig)))
    ∧ (∀ sg resp, env.statusResp sg = .ok resp →
        ((∀ c m, resp.error = some ⟨c, m⟩ →
            get_signature_status env sg = .error (.Protocol c m))
         ∧ (∀ c m, get_signature_status env sg = .error (.Protocol c m) →
            resp.error = some ⟨c, m⟩)
         ∧ ((∃ m, get_signature_status env sg = .error (.EmptyResult m))
              ↔ resp.error = none ∧ resp.result = none)
         ∧ (∀ r, resp.error = none → resp.result = some r →
              get_signature_status env sg = .ok r.value))) := by
  refine ⟨?_, ?_, ?_⟩
  · intro resp hresp
    refine ⟨?_, ?_, ?_, ?_⟩
    · intro c m he
      simp [get_recent_blockhash, hresp, he]
    · intro c m he
      rcases herr : resp.error with _ | e
      · rcases hres : resp.result with _ | r
        · simp [get_recent_blockhash, hresp, herr, hres] at he
        · rcases hh : hash_from_str r.value.blockhash with m2 | h
          · simp [get_recent_blockhash, hresp, herr, hres, hh] at he
          · simp [get_recent_blockhash, hresp, herr, hres, hh] at he
      · simp [get_recent_blockhash, hresp, herr] at he
        rw [← he.1, ← he.2]
    · constructor
      · rintro ⟨m, hm⟩
        rcases herr : resp.error with _ | e
        · rcases hres : resp.result with _ | r
          · exact ⟨rfl, rfl⟩
          · rcases hh : hash_from_str r.value.blockhash with m2 | h
            · simp [get_recent_blockhash, hresp, herr, hres, hh] at hm
            · simp [get_recent_blockhash, hresp, herr, hres, hh] at hm
        · simp [get_recent_blockhash, hresp, herr] at hm
      · rintro ⟨he, hr⟩
        exact ⟨"No result in response",
          by simp [get_recent_blockhash, hresp, he, hr]⟩
    · intro r he hr
      constructor
      · rintro ⟨h, hh⟩
        rcases hp : hash_from_str r.value.blockhash with m2 | h2
        · simp [get_recent_blockhash, hresp, he, hr, hp] at hh
        · exact ⟨h2, rfl⟩
      · rintro ⟨h, hh⟩
        exact ⟨h, by simp [get_recent_blockhash, hresp, he, hr, hh]⟩
  · intro tx resp hresp
    refine ⟨?_, ?_, ?_, ?_⟩
    · intro c m he
      simp [send_transaction, hresp, he]
    · intro c m he
      rcases herr : resp.error with _ | e
      · rcases hres : resp.result with _ | r
        · simp [send_transaction, hresp, herr, hres] at he
        · simp [send_transaction, hresp, herr, hres] at he
      · simp [send_transaction, hresp, herr] at he
        rw [← he.1, ← he.2]
    · constructor
      · rintro ⟨m, hm⟩
        rcases herr : resp.error with _ | e
        · rcases hres : resp.result with _ | r
          · exact ⟨rfl, rfl⟩
          · simp [send_transaction, hresp, herr, hres] at hm
        · simp [send_transaction, hresp, herr] at hm
      · rintro ⟨he, hr⟩
        exact ⟨"No signature in response",
          by simp [send_transaction, hresp, he, hr]⟩
    · intro sig he hr
      simp [send_transaction, hresp, he, hr]
  · intro sg resp hresp
    refine ⟨?_, ?_, ?_, ?_⟩
    · intro c m he
      simp [get_signature_status, hresp, he]
    · intro c m he
      rcases herr : resp.error with _ | e
      · rcases hres : resp.result with _ | r
        · simp [get_signature_status, hresp, herr, hres] at he
        · simp [get_signature_status, hresp, herr, hres] at he
      · simp [get_signature_status, hresp, herr] at he
        rw [← he.1, ← he.2]
    · constructor
      · rintro ⟨m, hm⟩
        rcases herr : resp.error with _ | e
        · rcases hres : resp.result with _ | r
          · exact ⟨rfl, rfl⟩
          · simp [get_signature_status, hresp, herr, hres] at hm
        · simp [get_signature_status, hresp, herr] at hm
      · rintro ⟨he, hr⟩
        exact ⟨"No result in response",
          by simp [get_signature_status, hresp, he, hr]⟩
    · intro r he hr
      simp [get_signature_status, hresp, he, hr]

/-- Counterexample to C5 as stated: a blockhash response that carries
a result and no error object, yet the call does not succeed, because
the blockhash string inside the result (a single zero digit, invalid
base-58) fails to parse. -/
theorem rpc_envelope_counterexample :
    badHashEnv.blockhashResp
      = Except.ok { jsonrpc := "2.0", id := 1,
                    result := some ⟨⟨"0", 3⟩⟩, error := none }
    ∧ get_recent_blockhash badHashEnv
        = .error (.Transport "failed to decoded string to hash") := by
  decide

set_option maxRecDepth 20000 in
/-- Witness for C5: in the all-success environment the three
characterisations apply to the concrete decoded responses; the send
call succeeds with the fixture signature and the status call with the
confirmed fixture status. -/
theorem rpc_envelope_spec_witness :
    send_transaction testEnv
        { instructions := [], feePayer := none,
          recentBlockhash := ⟨[]⟩, signerPubkeys := [] }
      = .ok "SIG_A"
    ∧ get_signature_status testEnv "SIG_A" = .ok (some okStatus)
    ∧ ((∃ h, get_recent_blockhash testEnv = .ok h)
          ↔ ∃ h, hash_from_str bhString = .ok h) :=
  ⟨(rpc_envelope_spec testEnv).2.1
      { instructions := [], feePayer := none,
        recentBlockhash := ⟨[]⟩, signerPubkeys := [] }
      ⟨"2.0", 1, some "SIG_A", none⟩ rfl |>.2.2.2 "SIG_A" rfl rfl,
   (rpc_envelope_spec testEnv).2.2 "SIG_A"
      ⟨"2.0", 1, some ⟨some okStatus⟩, none⟩ rfl |>.2.2.2
      ⟨some okStatus⟩ rfl rfl,
   (rpc_envelope_spec testEnv).1 ⟨"2.0", 1, some ⟨⟨bhString, 100⟩⟩, none⟩
      rfl |>.2.2.2 ⟨⟨bhString, 100⟩⟩ rfl rfl⟩

/-- Every branch of the executor stamps the result with the addresses
of its own pair. -/
lemma runTransfer_addresses (env : Env) (a : Nat) (bh : Hash)
    (s : SenderWallet) (r : String) :
    (runTransfer env a bh s r).1.from_address = s.address
    ∧ (runTransfer env a bh s r).1.to_address = r := by
  unfold runTransfer
  repeat' split
  all_goals exact ⟨rfl, rfl⟩

/-- Length of a sender-major, recipient-minor cross product built by
nested flat-map and map. -/
lemma flatMap_map_length {α β γ : Type _} (l : List α) (g : List γ)
    (f : α → γ → β) :
    (l.flatMap fun s => g.map fun r => f s r).length
      = l.length * g.length := by
  induction l with
  | nil => simp
  | cons x xs ih => simp [ih, Nat.succ_mul, Nat.add_comm]

/-- Claim C2: when the blockhash fetch fails, the batch returns the
empty collection and its trace consists of the blockhash fetch alone,
so no transaction submission and no status check is ever issued. -/
theorem blockhash_failure_fail_fast (env : Env)
    (sender_wallets : List SenderWallet) (recipients : List String)
    (amount_lamports : Nat) (f : RpcFailure)
    (h : get_recent_blockhash env = .error f) :
    (execute_transfers env sender_wallets recipients amount_lamports).1 = []
    ∧ (execute_transfers env sender_wallets recipients amount_lamports).2
        = [RpcCall.getLatestBlockhash]
    ∧ ∀ c ∈ (execute_transfers env sender_wallets recipients
               amount_lamports).2,
        (∀ tx, c ≠ .sendTransaction tx) ∧ (∀ sg, c ≠ .getSignatureStatus sg) := by
  refine ⟨?_, ?_, ?_⟩
  · simp [execute_transfers, h]
  · simp [execute_transfers, h]
  · intro c hc
    simp [execute_transfers, h] at hc
    subst hc
    exact ⟨fun tx => by simp, fun sg => by simp⟩

/-- Witness for C2: with the transport-failing environment and a
nonempty batch of one sender and one recipient, the batch is empty and
its trace is the lone blockhash fetch. -/
theorem blockhash_failure_fail_fast_witness :
    (execute_transfers failEnv [⟨"SENDER", skString⟩] [rcString] 5).1 = []
    ∧ (execute_transfers failEnv [⟨"SENDER", skString⟩] [rcString] 5).2
        = [RpcCall.getLatestBlockhash]
    ∧ ∀ c ∈ (execute_transfers failEnv [⟨"SENDER", skString⟩] [rcString] 5).2,
        (∀ tx, c ≠ .sendTransaction tx)
        ∧ (∀ sg, c ≠ .getSignatureStatus sg) :=
  blockhash_failure_fail_fast failEnv [⟨"SENDER", skString⟩] [rcString] 5
    (.Transport "connection refused") (by decide)

/-- Claim C1: when the blockhash fetch succeeds, the batch returns
exactly S times R results for S senders and R recipients, and the
address pairs of the returned results are exactly the sender-major,
recipient-minor cross product of the inputs, so no pair is dropped or
duplicated whatever the outcomes of the per-pair parse and submit
steps resolved by the environment. -/
theorem execute_transfers_cross_product (env : Env)
    (sender_wallets : List SenderWallet) (recipients : List String)
    (amount_lamports : Nat) (bh : Hash)
    (h : get_recent_blockhash env = .ok bh) :
    (execute_transfers env sender_wallets recipients amount_lamports).1.length
      = sender_wallets.length * recipients.length
    ∧ (execute_transfers env sender_wallets recipients
          amount_lamports).1.map (fun t => (t.from_address, t.to_address))
        = sender_wallets.flatMap fun s =>
            recipients.map fun r => (s.address, r) := by
  constructor
  · simp only [execute_transfers, h]
    rw [List.length_map]
    exact flatMap_map_length sender_wallets recipients _
  · simp only [execute_transfers, h]
    rw [List.map_map, List.map_flatMap]
    refine congrArg (List.flatMap sender_wallets) ?_
    funext s
    rw [List.map_map]
    refine congrArg (fun f => List.map f recipients) ?_
    funext r
    rcases runTransfer_addresses env amount_lamports bh s r with ⟨h1, h2⟩
    simp [Function.comp, h1, h2]

set_option maxRecDepth 40000 in
/-- Witness for C1: a concrete 2-by-2 batch in the all-success
environment in which one sender has an undecodable key and one
recipient address is invalid, so two of the four pairs fail; the
batch still returns the four cross-product address pairs in order. -/
theorem execute_transfers_cross_product_witness :
    (execute_transfers testEnv
        [⟨"S1", skString⟩, ⟨"S2", "bad"⟩] [rcString, "x"] 5).1.length = 2 * 2
    ∧ (execute_transfers testEnv
          [⟨"S1", skString⟩, ⟨"S2", "bad"⟩] [rcString, "x"] 5).1.map
          (fun t => (t.from_address, t.to_address))
        = [("S1", rcString), ("S1", "x"), ("S2", rcString), ("S2", "x")] := by
  rcases execute_transfers_cross_product testEnv
      [⟨"S1", skString⟩, ⟨"S2", "bad"⟩] [rcString, "x"] 5
      ⟨List.replicate 32 0⟩ (by decide) with ⟨h1, h2⟩
  exact ⟨h1, by rw [h2]; decide⟩

/-- Indexing a sender-major, recipient-minor cross product: the entry
at the flat index of block `i` and offset `j` is the image of the
`i`-th outer and the `j`-th inner element. -/
lemma flatMap_map_getElem {α β γ : Type _} (l : List α) (g : List γ)
    (f : α → γ → β) (i j : Nat) (hi : i < l.length) (hj : j < g.length) :
    (l.flatMap fun s => g.map fun r => f s r)[i * g.length + j]?
      = some (f (l.get ⟨i, hi⟩) (g.get ⟨j, hj⟩)) := by
  induction l generalizing i with
  | nil => simp at hi
  | cons x xs ih =>
      cases i with
      | zero =>
          rw [List.flatMap_cons, List.getElem?_append]
          rw [if_pos (by simpa using hj)]
          simp [List.getElem?_map, List.getElem?_eq_getElem hj]
      | succ i =>
          have hi2 : i < xs.length := by simpa using hi
          rw [List.flatMap_cons, List.getElem?_append]
          rw [if_neg (by simp only [List.length_map, Nat.succ_mul]; omega)]
          have harith : (i + 1) * g.length + j
              - (g.map fun r => f x r).length = i * g.length + j := by
            simp only [List.length_map, Nat.succ_mul]
            omega
          rw [harith, ih i hi2]
          rfl

/-- Claim C10: with a successful blockhash fetch, the batch result
list is in deterministic sender-major, recipient-minor input order:
the entry at flat index `i * R + j` is exactly the transfer result of
the `i`-th sender paired with the `j`-th recipient, because `join_all`
collects the concurrently run tasks in launch order. -/
theorem execute_transfers_order (env : Env)
    (sender_wallets : List SenderWallet) (recipients : List String)
    (amount_lamports : Nat) (bh : Hash)
    (h : get_recent_blockhash env = .ok bh) (i j : Nat)
    (hi : i < sender_wallets.length) (hj : j < recipients.length) :
    (execute_transfers env sender_wallets recipients
        amount_lamports).1[i * recipients.length + j]?
      = some (runTransfer env amount_lamports bh
          (sender_wallets.get ⟨i, hi⟩) (recipients.get ⟨j, hj⟩)).1 := by
  simp only [execute_transfers, h, List.map_flatMap, List.map_map]
  exact flatMap_map_getElem sender_wallets recipients
    (fun s r => (runTransfer env amount_lamports bh s r).1) i j hi hj

set_option maxRecDepth 40000 in
/-- Witness for C10: in the 2-by-2 fixture batch, the entry at flat
index 2 (sender index 1, recipient index 0) is the executor result of
the second sender paired with the first recipient. -/
theorem execute_transfers_order_witness :
    (execute_transfers testEnv [⟨"S1", skString⟩, ⟨"S2", "bad"⟩]
        [rcString, "x"] 5).1[1 * 2 + 0]?
      = some (runTransfer testEnv 5 ⟨List.replicate 32 0⟩
          ⟨"S2", "bad"⟩ rcString).1 :=
  execute_transfers_order testEnv [⟨"S1", skString⟩, ⟨"S2", "bad"⟩]
    [rcString, "x"] 5 ⟨List.replicate 32 0⟩ (by decide) 1 0
    (by norm_num) (by norm_num)

/-- Claim C3: for a pair whose submission succeeds, the task trace is
exactly the submission, the fixed 2000 ms wait, and one status query
— so exactly one confirmation-status query is issued after the fixed
delay — and when that query fails the result still carries no error,
keeps the submission signature, and has an absent status. -/
theorem submitted_status_single_query (env : Env) (a : Nat) (bh : Hash)
    (s : SenderWallet) (r : String) (kp : Keypair) (pk : Pubkey)
    (tx : Transaction) (sig : String)
    (hk : parse_keypair env.fromBytes s.private_key = .ok kp)
    (hr : pubkey_from_str r = .ok pk)
    (htx : create_transfer_transaction kp pk a bh = .ok tx)
    (hs : send_transaction env tx = .ok sig) :
    (runTransfer env a bh s r).2
        = [.sendTransaction tx, .sleep 2000, .getSignatureStatus sig]
    ∧ ((runTransfer env a bh s r).2.countP
          (fun c => match c with
                    | .getSignatureStatus _ => true
                    | _ => false)) = 1
    ∧ ∀ f, get_signature_status env sig = .error f →
        (runTransfer env a bh s r).1.error = none
        ∧ (runTransfer env a bh s r).1.signature = sig
        ∧ (runTransfer env a bh s r).1.status = none := by
  refine ⟨?_, ?_, ?_⟩
  · simp only [runTransfer, hk, hr, htx, hs]
  · simp only [runTransfer, hk, hr, htx, hs]
    rfl
  · intro f hf
    simp only [runTransfer, hk, hr, htx, hs, hf]
    exact ⟨by trivial, by trivial, by trivial⟩

set_option maxRecDepth 40000 in
/-- Witness for C3: in the environment whose status query fails at the
transport level, the fixture pair submits successfully and its result
has no error, carries the fixture signature, and an absent status. -/
theorem submitted_status_single_query_witness :
    (runTransfer statusFailEnv 5 ⟨List.replicate 32 0⟩
        ⟨"S1", skString⟩ rcString).1.error = none
    ∧ (runTransfer statusFailEnv 5 ⟨List.replicate 32 0⟩
          ⟨"S1", skString⟩ rcString).1.signature = "SIG_A"
    ∧ (runTransfer statusFailEnv 5 ⟨List.replicate 32 0⟩
          ⟨"S1", skString⟩ rcString).1.status = none :=
  (submitted_status_single_query statusFailEnv 5 ⟨List.replicate 32 0⟩
      ⟨"S1", skString⟩ rcString
      ⟨List.replicate 32 0, List.replicate 32 0⟩ ⟨List.replicate 32 0⟩
      { instructions :=
          [⟨⟨List.replicate 32 0⟩, ⟨List.replicate 32 0⟩, 5⟩]
        feePayer := some ⟨List.replicate 32 0⟩
        recentBlockhash := ⟨List.replicate 32 0⟩
        signerPubkeys := [⟨List.replicate 32 0⟩] }
      "SIG_A" (by decide) (by decide) (by decide) (by decide)).2.2
    (.Transport "timeout") (by decide)

/-- A string with a nonempty prefix is nonempty. -/
lemma append_ne_empty_of_left (p e : String) (hp : p.length ≠ 0) :
    p ++ e ≠ "" := by
  intro hc
  have hlen := congrArg String.length hc
  rw [String.length_append] at hlen
  simp at hlen
  omega

/-- Claim C4: whenever the executor produces a result with a present
error (which happens exactly on a keypair-parse, recipient-parse,
build or submission failure), that error message is nonempty, the
signature is empty, the status is absent, and the recorded time is the
clock sample taken at the failure point (after exactly the operations
in the trace); no sleep and no status query ever ran for that pair,
and sibling pairs are unaffected: with a good blockhash the batch
still has one result per cross-product pair. -/
theorem failure_short_circuit (env : Env) (a : Nat) (bh : Hash)
    (s : SenderWallet) (r : String) (msg : String)
    (h : (runTransfer env a bh s r).1.error = some msg) :
    msg ≠ ""
    ∧ (runTransfer env a bh s r).1.signature = ""
    ∧ (runTransfer env a bh s r).1.status = none
    ∧ (runTransfer env a bh s r).1.processing_time
        = env.time s.address r (runTransfer env a bh s r).2.length
    ∧ (∀ ms, RpcCall.sleep ms ∉ (runTransfer env a bh s r).2)
    ∧ (∀ sg, RpcCall.getSignatureStatus sg ∉ (runTransfer env a bh s r).2)
    ∧ ∀ (sender_wallets : List SenderWallet) (recipients : List String),
        get_recent_blockhash env = .ok bh →
        (execute_transfers env sender_wallets recipients a).1.length
          = sender_wallets.length * recipients.length := by
  have hbatch : ∀ (sw : List SenderWallet) (rs : List String),
      get_recent_blockhash env = .ok bh →
      (execute_transfers env sw rs a).1.length
        = sw.length * rs.length := by
    intro sw rs hok
    simp only [execute_transfers, hok]
    rw [List.length_map]
    exact flatMap_map_length sw rs _
  rcases hk : parse_keypair env.fromBytes s.private_key with e | kp
  · simp only [runTransfer, hk] at h ⊢
    have hmsg : msg = "Failed to parse keypair: " ++ e := by
      simpa using h.symm
    refine ⟨?_, by trivial, by trivial, by trivial, ?_, ?_, hbatch⟩
    · rw [hmsg]
      exact append_ne_empty_of_left _ _ (by decide)
    · intro ms hin
      simp at hin
    · intro sg hin
      simp at hin
  · rcases hp : pubkey_from_str r with e | pk
    · simp only [runTransfer, hk, hp] at h ⊢
      have hmsg : msg = "Invalid recipient address: " ++ e := by
        simpa using h.symm
      refine ⟨?_, by trivial, by trivial, by trivial, ?_, ?_, hbatch⟩
      · rw [hmsg]
        exact append_ne_empty_of_left _ _ (by decide)
      · intro ms hin
        simp at hin
      · intro sg hin
        simp at hin
    · rcases hsend : send_transaction env
          { instructions := [⟨kp.pubkey, pk, a⟩]
            feePayer := some kp.pubkey
            recentBlockhash := bh
            signerPubkeys := [kp.pubkey] } with f | sig
      · simp only [runTransfer, hk, hp, create_transfer_transaction,
          hsend] at h ⊢
        have hmsg : msg = "Failed to send transaction: " ++ f.render := by
          simpa using h.symm
        refine ⟨?_, by trivial, by trivial, by trivial, ?_, ?_, hbatch⟩
        · rw [hmsg]
          exact append_ne_empty_of_left _ _ (by decide)
        · intro ms hin
          simp at hin
        · intro sg hin
          simp at hin
      · simp only [runTransfer, hk, hp, create_transfer_transaction,
          hsend] at h
        exact Option.noConfusion h

set_option maxRecDepth 40000 in
/-- Witness for C4: in the environment whose submission fails with a
protocol error, the fixture pair carries the formatted nonempty error
message, an empty signature and an absent status, and a sibling batch
of one pair still has one result. -/
theorem failure_short_circuit_witness :
    ("Failed to send transaction: RPC Error: -32002 - blockhash expired"
        ≠ "")
    ∧ (runTransfer sendFailEnv 5 ⟨List.replicate 32 0⟩
          ⟨"S1", skString⟩ rcString).1.signature = ""
    ∧ (runTransfer sendFailEnv 5 ⟨List.replicate 32 0⟩
          ⟨"S1", skString⟩ rcString).1.status = none
    ∧ (execute_transfers sendFailEnv [⟨"S1", skString⟩] [rcString] 5).1.length
        = 1 * 1 :=
  ⟨(failure_short_circuit sendFailEnv 5 ⟨List.replicate 32 0⟩
      ⟨"S1", skString⟩ rcString
      "Failed to send transaction: RPC Error: -32002 - blockhash expired"
      (by decide)).1,
   (failure_short_circuit sendFailEnv 5 ⟨List.replicate 32 0⟩
      ⟨"S1", skString⟩ rcString
      "Failed to send transaction: RPC Error: -32002 - blockhash expired"
      (by decide)).2.1,
   (failure_short_circuit sendFailEnv 5 ⟨List.replicate 32 0⟩
      ⟨"S1", skString⟩ rcString
      "Failed to send transaction: RPC Error: -32002 - blockhash expired"
      (by decide)).2.2.1,
   (failure_short_circuit sendFailEnv 5 ⟨List.replicate 32 0⟩
      ⟨"S1", skString⟩ rcString
      "Failed to send transaction: RPC Error: -32002 - blockhash expired"
      (by decide)).2.2.2.2.2.2 [⟨"S1", skString⟩] [rcString] (by decide)⟩
